import Mathlib

/-!
Shallow embedding of `src/app.js` (camera + MobileNet classification glue).

The script keeps three module-level mutable variables (`currentStream`,
`model`, `predictInterval`), a `<video>` element and a `<ul>` list of
prediction entries, plus a status `<h3>` inside the results container.
We embed the whole script as pure state transformers over an explicit
`AppState`.  Platform collaborators (getUserMedia, enumerateDevices,
mobilenet.load, model.classify, video.play) are modelled as oracle inputs
passed to the operations.  JS numbers are modelled as rationals; the
single-threaded event-loop semantics is modelled by running each handler
atomically, which is faithful for the sequential properties stated here.
-/

namespace Reconocimiento

/-- A media track: `true` means live, `false` means stopped
(`track.stop()` flips it to `false`). -/
abbrev MediaTrack := Bool

/-- A capture stream as held in the heap: its identity and its tracks. -/
structure MediaStream where
  sid : Nat
  tracks : List MediaTrack
  deriving DecidableEq, Repr

/-- A device descriptor as returned by `enumerateDevices()`. -/
structure Device where
  deviceId : String
  kind : String
  label : String
  deriving DecidableEq, Repr

/-- One classification result entry, `{className, probability}` as
produced by `model.classify`. -/
structure Pred where
  className : String
  probability : ℚ
  deriving DecidableEq, Repr

/-- The whole mutable state of the script: the three module variables,
the heap of streams the page has seen (so that stopping a replaced
stream stays observable), the video element and the results surface. -/
structure AppState where
  /-- Heap of every stream handed out by getUserMedia so far. -/
  streams : List MediaStream
  /-- `currentStream` module variable, by stream id. -/
  currentStream : Option Nat
  /-- `model` module variable: the cached model instance id. -/
  model : Option Nat
  /-- How many times `window.mobilenet.load()` was actually invoked. -/
  loadCount : Nat
  /-- `predictInterval` module variable: the repeating-task handle. -/
  predictInterval : Option Nat
  /-- Fresh id supply for interval handles. -/
  nextHandle : Nat
  /-- Fresh id supply for stream ids. -/
  nextSid : Nat
  /-- `videoEl.srcObject`, by stream id. -/
  videoSrc : Option Nat
  /-- `videoEl.muted`. -/
  videoMuted : Bool
  /-- Whether `videoEl` is paused. -/
  videoPaused : Bool
  /-- Text of the entries currently in the `predictions` list. -/
  predictionsList : List String
  /-- Text of the `<h3>` status element inside `results`. -/
  statusText : String
  deriving DecidableEq, Repr

/-- State of the page before any handler runs. -/
def initState : AppState :=
  { streams := []
    currentStream := none
    model := none
    loadCount := 0
    predictInterval := none
    nextHandle := 0
    nextSid := 0
    videoSrc := none
    videoMuted := false
    videoPaused := true
    predictionsList := []
    statusText := "" }

/-! ## Render/Display adapter: `updatePredictions` -/

/-- JS `Number.prototype.toFixed(2)` on a rational: the integer `n`
minimising `|n / 100 - x|`, larger `n` on ties, i.e. `⌊100 x + 1/2⌋`,
rendered with exactly two decimals (nonnegative inputs).  The rounding
is written on numerator and denominator — the theorem
`toFixed2_div_eq_floor` below proves it equal to `⌊100 x + 1/2⌋`. -/
def toFixed2 (x : ℚ) : String :=
  let n : Int := (200 * x.num + (x.den : Int)) / (2 * (x.den : Int))
  let m := n.toNat
  let intPart := toString (m / 100)
  let r := m % 100
  let fracPart := if r < 10 then "0" ++ toString r else toString r
  intPart ++ "." ++ fracPart

/-- The text of one rendered entry:
`` `${p.className} — ${(p.probability * 100).toFixed(2)}%` ``. -/
def predEntry (p : Pred) : String :=
  p.className ++ " — " ++ toFixed2 (p.probability * 100) ++ "%"

/-- The list of entry texts produced by `updatePredictions(preds)`:
the list is cleared, then either a single placeholder (null or empty
input) or one entry per prediction in input order. -/
def renderList : Option (List Pred) → List String
  | none => ["No hay predicciones"]
  | some [] => ["No hay predicciones"]
  | some ps => ps.map predEntry

/-- `updatePredictions(preds)`: replaces the contents of the
predictions list. -/
def updatePredictions (preds : Option (List Pred)) (st : AppState) : AppState :=
  { st with predictionsList := renderList preds }

/-! ## Model loading: `loadModel` -/

/-- `loadModel()`.  The oracle `ok` says whether `window.mobilenet.load()`
would succeed at this call.  Returns the model (or an error) and the new
state; `loadCount` counts actual invocations of the underlying load. -/
def loadModel (ok : Bool) (st : AppState) : Except Unit Nat × AppState :=
  match st.model with
  | some m => (Except.ok m, st)
  | none =>
    if ok then
      let m := st.loadCount
      (Except.ok m,
        { st with model := some m, loadCount := st.loadCount + 1,
                  statusText := "Modelo cargado" })
    else
      (Except.error (),
        { st with loadCount := st.loadCount + 1,
                  statusText := "Error cargando modelo" })

/-! ## Prediction loop -/

/-- The body `runOnce` of the prediction loop: classify the current
frame (oracle outcome `res`); on success publish via
`updatePredictions`, on failure log and leave everything unchanged. -/
def runOnce (res : Except Unit (List Pred)) (st : AppState) : AppState :=
  match res with
  | Except.ok preds => updatePredictions (some preds) st
  | Except.error _ => st

/-- `startPredictions()` run to completion with no interleaving: the
per-call contract of the async function when no other event fires
between its awaits.  `loadOk` is the oracle for the model load,
`firstTick` the oracle outcome of the immediate first classification
pass.  Interleavings at the suspension points are modelled separately
by `astep` on `AsyncState` below. -/
def startPredictions (loadOk : Bool) (firstTick : Except Unit (List Pred))
    (st : AppState) : AppState :=
  match st.currentStream with
  | none => st
  | some _ =>
    match loadModel loadOk st with
    | (Except.error _, st1) => st1
    | (Except.ok _, st1) =>
      if st1.predictInterval.isSome then st1
      else
        let st2 := runOnce firstTick st1
        { st2 with predictInterval := some st2.nextHandle,
                   nextHandle := st2.nextHandle + 1 }

/-- `stopPredictions()`: clear the interval if any, then
`updatePredictions([])`. -/
def stopPredictions (st : AppState) : AppState :=
  let st1 := { st with predictInterval := none }
  updatePredictions (some []) st1

/-- One firing of the `setInterval` timer: the callback runs only while
the interval handle is still registered. -/
def intervalTick (res : Except Unit (List Pred)) (st : AppState) : AppState :=
  if st.predictInterval.isSome then runOnce res st else st

/-! ## Stream lifecycle: `stopCamera`, `attachStream` -/

/-- Stop every track of the stream with id `sid` in the heap. -/
def stopTracksOf (sid : Nat) (streams : List MediaStream) : List MediaStream :=
  streams.map fun s =>
    if s.sid = sid then { s with tracks := s.tracks.map fun _ => false } else s

/-- `stopCamera()`: no-op when no stream is current; otherwise stop all
tracks, clear the reference, pause and detach the video element, and
stop predictions. -/
def stopCamera (st : AppState) : AppState :=
  match st.currentStream with
  | none => st
  | some sid =>
    let st1 :=
      { st with streams := stopTracksOf sid st.streams,
                currentStream := none,
                videoPaused := true,
                videoSrc := none }
    stopPredictions st1

/-- `attachStream(stream)`: stop the previous stream if any, store the
new one (a fresh heap stream whose tracks are `tracks`), bind it to the
video element, mute, attempt playback (`playOk` oracle; a rejection is
only logged), then `startPredictions()`. -/
def attachStream (loadOk : Bool) (firstTick : Except Unit (List Pred))
    (playOk : Bool) (tracks : List MediaTrack) (st : AppState) : AppState :=
  let st1 := match st.currentStream with
    | some _ => stopCamera st
    | none => st
  let sid := st1.nextSid
  let st2 :=
    { st1 with streams := st1.streams ++ [⟨sid, tracks⟩],
               nextSid := sid + 1,
               currentStream := some sid,
               videoSrc := some sid,
               videoMuted := true,
               videoPaused := if playOk then false else st1.videoPaused }
  startPredictions loadOk firstTick st2

/-! ## Device selector fallback -/

/-- ASCII lower-casing of one character, the case folding the
case-insensitive regex flag applies to the ASCII keywords of
`backRegex`. -/
def lowerChar (c : Char) : Char :=
  if 65 ≤ c.toNat ∧ c.toNat ≤ 90 then Char.ofNat (c.toNat + 32) else c

/-- Case-insensitive substring test (the effect of
`/back|rear|environment|trasera|posterior/i.test(label)` for one
keyword). -/
def strContainsCI (s pat : String) : Bool :=
  ((s.data.map lowerChar).tails.any fun t =>
    (pat.data.map lowerChar).isPrefixOf t)

/-- `backRegex.test(label)`: does the label contain (case-insensitively)
one of the rear-camera keywords? -/
def hasBackKeyword (label : String) : Bool :=
  ["back", "rear", "environment", "trasera", "posterior"].any
    (fun k => strContainsCI label k)

/-- The fallback chooser over the filtered video devices:
`videoDevices.find(d => backRegex.test(d.label))`, else the last device. -/
def selectFallback (videoDevices : List Device) : Option Device :=
  match videoDevices.find? (fun d => hasBackKeyword d.label) with
  | some d => some d
  | none => videoDevices.getLast?

/-! ## `startCamera` -/

/-- The oracle describing the platform's behaviour during one
`startCamera()` call. -/
structure StartEnv where
  /-- `navigator.mediaDevices && navigator.mediaDevices.getUserMedia`. -/
  apiAvailable : Bool
  /-- Outcome of the facing-mode getUserMedia attempt: the tracks of the
  granted stream, or failure. -/
  directResult : Except Unit (List MediaTrack)
  /-- Outcome of `enumerateDevices()`. -/
  enumResult : Except Unit (List Device)
  /-- Outcome of the deviceId-pinned getUserMedia attempt. -/
  fallbackResult : Except Unit (List MediaTrack)
  /-- Whether `window.mobilenet.load()` would succeed. -/
  loadOk : Bool
  /-- Outcome of the immediate first classification pass. -/
  firstTick : Except Unit (List Pred)
  /-- Whether `videoEl.play()` resolves. -/
  playOk : Bool

/-- `startCamera()`: returns the alerts shown and the final state. -/
def startCamera (env : StartEnv) (st : AppState) : List String × AppState :=
  if !env.apiAvailable then
    (["getUserMedia no está disponible en este navegador. Usa un navegador moderno."],
      st)
  else
    match env.directResult with
    | Except.ok tracks =>
      ([], attachStream env.loadOk env.firstTick env.playOk tracks st)
    | Except.error _ =>
      match env.enumResult with
      | Except.error _ => (["Error al acceder a la cámara"], st)
      | Except.ok devices =>
        let videoDevices := devices.filter fun d => d.kind == "videoinput"
        if videoDevices.isEmpty then
          (["Error al acceder a la cámara: No se encontraron dispositivos de vídeo."],
            st)
        else
          match selectFallback videoDevices with
          | none => (["Error al acceder a la cámara"], st)
          | some _chosen =>
            match env.fallbackResult with
            | Except.ok tracks =>
              ([], attachStream env.loadOk env.firstTick env.playOk tracks st)
            | Except.error _ => (["Error al acceder a la cámara"], st)

/-! ## Page events and runs -/

/-- The externally triggered events of the page. -/
inductive Ev
  /-- `startCamera()` (button/console or DOMContentLoaded handler body). -/
  | startCam (env : StartEnv)
  /-- `stopCamera()`. -/
  | stopCam
  /-- The `visibilitychange` handler with `document.hidden` true. -/
  | visHidden
  /-- The `DOMContentLoaded` handler: set the status, then `startCamera()`. -/
  | domLoaded (env : StartEnv)
  /-- One firing of the prediction interval timer. -/
  | tick (res : Except Unit (List Pred))

/-- One event handled atomically. -/
def step (ev : Ev) (st : AppState) : AppState :=
  match ev with
  | Ev.startCam env => (startCamera env st).2
  | Ev.stopCam => stopCamera st
  | Ev.visHidden =>
    match st.currentStream with
    | some _ => stopCamera st
    | none => st
  | Ev.domLoaded env =>
    (startCamera env { st with statusText := "Inicializando cámara y modelo..." }).2
  | Ev.tick res => intervalTick res st

/-- Run a sequence of events from a state. -/
def run (evs : List Ev) (st : AppState) : AppState :=
  evs.foldl (fun s e => step e s) st

/-- Every track of the stream is stopped. -/
def stoppedAll (s : MediaStream) : Bool :=
  s.tracks.all fun t => !t

/-- The state invariant maintained by every handler: stream ids in the
heap are below the fresh-id supply, any heap stream that is not current
has all tracks stopped (so at most one stream is active), the current
stream id is below the fresh-id supply, and a live interval handle
implies an active stream and a loaded model. -/
def Inv (st : AppState) : Prop :=
  (∀ s ∈ st.streams, s.sid < st.nextSid) ∧
  (∀ s ∈ st.streams, st.currentStream ≠ some s.sid → stoppedAll s = true) ∧
  (∀ i : Nat, st.currentStream = some i → i < st.nextSid) ∧
  (st.predictInterval.isSome → st.currentStream.isSome ∧ st.model.isSome)

/-- Demo oracle: media API available, facing-mode getUserMedia grants a
two-track stream, model load succeeds, first classification returns one
result. -/
def demoEnv : StartEnv :=
  { apiAvailable := true
    directResult := Except.ok [true, true]
    enumResult := Except.error ()
    fallbackResult := Except.error ()
    loadOk := true
    firstTick := Except.ok [⟨"cat", 1/2⟩]
    playOk := true }

/-- The state after one successful `startCamera()` from the initial
state. -/
def demoState : AppState := (startCamera demoEnv initState).2

/-- A state with an active stream but no model loaded yet. -/
def demoNoModel : AppState :=
  { initState with streams := [⟨0, [true]⟩], currentStream := some 0,
                   videoSrc := some 0 }

/-- The demo oracle with the media-capture API unavailable. -/
def demoEnvNoApi : StartEnv := { demoEnv with apiAvailable := false }

/-! ## Event-loop refinement of `startPredictions`

The async `startPredictions` (app.js 154-179) has genuine suspension
points: `await loadModel()` suspends at `await window.mobilenet.load()`
when the model is uncached, and `await runOnce()` suspends at
`model.classify(videoEl)`.  Other page events can run while these are
pending.  The model below makes those suspensions explicit: a state
carries the list of suspended `startPredictions` continuations, and
promise settlements are events (with an index, since settlement order
is chosen by the platform).  An `await` of an already-settled value
only crosses the microtask queue, which no page event can enter, so
such segments stay synchronous here. -/

/-- Where a suspended `startPredictions()` call is parked: inside
`loadModel` at `await window.mobilenet.load()` (carrying the instance
id that resolution will cache), or at the first `await runOnce()`
classification pass. -/
inductive SPStage
  | awaitLoad (mid : Nat)
  | awaitRun
  deriving DecidableEq, Repr

/-- The page state under the event-loop semantics: the synchronous
state plus the suspended `startPredictions` calls in flight. -/
structure AsyncState where
  base : AppState
  sp : List SPStage
  deriving DecidableEq, Repr

/-- The synchronous prefix of `startPredictions()` (app.js 154-166),
up to its first genuine suspension.  No active stream: return at once.
Uncached model: `loadModel` sets the loading status, invokes the
underlying load and suspends.  Cached model: `loadModel` returns the
cache, the interval guard runs, and the call either returns (loop
already running) or suspends at the first classification pass. -/
def spPrefix (a : AsyncState) : AsyncState :=
  match a.base.currentStream with
  | none => a
  | some _ =>
    match a.base.model with
    | none =>
      { base := { a.base with loadCount := a.base.loadCount + 1,
                              statusText := "Cargando modelo..." },
        sp := a.sp ++ [SPStage.awaitLoad a.base.loadCount] }
    | some _ =>
      if a.base.predictInterval.isSome then a
      else { a with sp := a.sp ++ [SPStage.awaitRun] }

/-- `attachStream(stream)` under the event-loop semantics: the body
(app.js 60-80) is synchronous, and the final `startPredictions()` call
is not awaited, so only its synchronous prefix runs within this
macrotask. -/
def attachStreamA (playOk : Bool) (tracks : List MediaTrack)
    (a : AsyncState) : AsyncState :=
  let st1 := match a.base.currentStream with
    | some _ => stopCamera a.base
    | none => a.base
  let sid := st1.nextSid
  let st2 :=
    { st1 with streams := st1.streams ++ [⟨sid, tracks⟩],
               nextSid := sid + 1,
               currentStream := some sid,
               videoSrc := some sid,
               videoMuted := true,
               videoPaused := if playOk then false else st1.videoPaused }
  spPrefix { a with base := st2 }

/-- The macrotask events of the refined model. -/
inductive AEv
  /-- getUserMedia resolves and `attachStream` runs (app.js 24 or 53). -/
  | attach (playOk : Bool) (tracks : List MediaTrack)
  /-- `stopCamera()`, directly or from the hidden-page handler. -/
  | stopCam
  /-- The pending `window.mobilenet.load()` of suspension `i` settles. -/
  | loadResolve (i : Nat) (ok : Bool)
  /-- The pending first classification pass of suspension `i` settles. -/
  | runResolve (i : Nat) (res : Except Unit (List Pred))
  /-- One firing of the prediction interval timer. -/
  | tick (res : Except Unit (List Pred))

/-- One macrotask.  A settlement event runs the suspended continuation
up to its next await: a successful load caches the instance, sets the
loaded status and re-checks only the interval guard (app.js 165) before
starting the first pass; a failed load sets the error status and the
call returns through its catch; a finished first pass publishes (or
logs) and then registers the interval (app.js 178) unconditionally. -/
def astep (ev : AEv) (a : AsyncState) : AsyncState :=
  match ev with
  | AEv.attach playOk tracks => attachStreamA playOk tracks a
  | AEv.stopCam => { a with base := stopCamera a.base }
  | AEv.loadResolve i ok =>
    match a.sp[i]? with
    | some (SPStage.awaitLoad mid) =>
      if ok then
        let base1 := { a.base with model := some mid,
                                   statusText := "Modelo cargado" }
        if base1.predictInterval.isSome then
          { base := base1, sp := a.sp.eraseIdx i }
        else
          { base := base1, sp := a.sp.set i SPStage.awaitRun }
      else
        { base := { a.base with statusText := "Error cargando modelo" },
          sp := a.sp.eraseIdx i }
    | _ => a
  | AEv.runResolve i res =>
    match a.sp[i]? with
    | some SPStage.awaitRun =>
      let base1 := runOnce res a.base
      { base := { base1 with predictInterval := some base1.nextHandle,
                             nextHandle := base1.nextHandle + 1 },
        sp := a.sp.eraseIdx i }
    | _ => a
  | AEv.tick res => { a with base := intervalTick res a.base }

/-- Run a sequence of macrotasks. -/
def arun (evs : List AEv) (a : AsyncState) : AsyncState :=
  evs.foldl (fun s e => astep e s) a

/-- The page before any handler runs, refined model. -/
def initAsync : AsyncState := { base := initState, sp := [] }

end Reconocimiento

namespace Reconocimiento

/-! ## Helper lemmas -/

theorem mem_stopTracksOf {sid : Nat} {ss : List MediaStream} {s' : MediaStream}
    (h : s' ∈ stopTracksOf sid ss) :
    (stoppedAll s' = true ∧ ∃ s ∈ ss, s'.sid = s.sid) ∨
      (s' ∈ ss ∧ s'.sid ≠ sid) := by
  obtain ⟨s, hs, hf⟩ := List.mem_map.mp h
  by_cases hsid : s.sid = sid
  · left
    refine ⟨?_, s, hs, ?_⟩
    · rw [← hf]; simp [hsid, stoppedAll, List.all_map]
    · rw [← hf]; simp [hsid]
  · right
    constructor
    · rw [← hf]; simp [hsid, hs]
    · rw [← hf]; simp [hsid]

theorem inv_initState : Inv initState := by
  simp [Inv, initState]

theorem stopCamera_of_none {st : AppState} (h : st.currentStream = none) :
    stopCamera st = st := by
  simp [stopCamera, h]

theorem stopCamera_of_some {st : AppState} {sid : Nat}
    (h : st.currentStream = some sid) :
    stopCamera st =
      { st with streams := stopTracksOf sid st.streams,
                currentStream := none,
                videoPaused := true,
                videoSrc := none,
                predictInterval := none,
                predictionsList := ["No hay predicciones"] } := by
  simp [stopCamera, h, stopPredictions, updatePredictions, renderList]

theorem inv_stopCamera {st : AppState} (h : Inv st) : Inv (stopCamera st) := by
  obtain ⟨h1, h2, h3, h4⟩ := h
  cases hc : st.currentStream with
  | none => rw [stopCamera_of_none hc]; exact ⟨h1, h2, h3, h4⟩
  | some sid =>
    rw [stopCamera_of_some hc]
    refine ⟨?_, ?_, ?_, ?_⟩
    · intro s' hs'
      rcases mem_stopTracksOf hs' with ⟨_, s, hs, hsid⟩ | ⟨hs, _⟩
      · simpa [hsid] using h1 s hs
      · exact h1 s' hs
    · intro s' hs' _
      rcases mem_stopTracksOf hs' with ⟨hstop, _⟩ | ⟨hs, hne⟩
      · exact hstop
      · exact h2 s' hs (by simp [hc]; exact fun e => hne e.symm)
    · intro i hi; simp at hi
    · intro hp; simp at hp

theorem runOnce_frame (res : Except Unit (List Pred)) (st : AppState) :
    (runOnce res st) =
      { st with predictionsList := (runOnce res st).predictionsList } := by
  cases res <;> simp [runOnce, updatePredictions]

theorem loadModel_of_some {st : AppState} {m : Nat} (h : st.model = some m)
    (ok : Bool) : loadModel ok st = (Except.ok m, st) := by
  simp [loadModel, h]

theorem startPredictions_frame (loadOk : Bool) (ft : Except Unit (List Pred))
    (st : AppState) :
    (startPredictions loadOk ft st).streams = st.streams ∧
    (startPredictions loadOk ft st).currentStream = st.currentStream ∧
    (startPredictions loadOk ft st).nextSid = st.nextSid := by
  cases hc : st.currentStream <;>
    cases hm : st.model <;>
      cases loadOk <;>
        cases hp : st.predictInterval <;>
          cases ft <;>
            simp [startPredictions, loadModel, runOnce, updatePredictions,
              hc, hm, hp]

theorem startPredictions_inv2 (loadOk : Bool) (ft : Except Unit (List Pred))
    (st : AppState)
    (h : st.predictInterval.isSome → st.currentStream.isSome ∧ st.model.isSome) :
    (startPredictions loadOk ft st).predictInterval.isSome →
      (startPredictions loadOk ft st).currentStream.isSome ∧
        (startPredictions loadOk ft st).model.isSome := by
  cases hc : st.currentStream <;>
    cases hm : st.model <;>
      cases loadOk <;>
        cases hp : st.predictInterval <;>
          cases ft <;>
            simp_all [startPredictions, loadModel, runOnce, updatePredictions,
              hc, hm, hp]

/-- Properties of the intermediate state of `attachStream` after the
old stream (if any) has been dealt with: all heap streams are stopped,
ids stay below the fresh supply, the handle is cleared and the supply
is unchanged. -/
theorem attachStream_pre {st : AppState} (h : Inv st) :
    let st1 := match st.currentStream with
      | some _ => stopCamera st
      | none => st
    (∀ s ∈ st1.streams, s.sid < st1.nextSid) ∧
    (∀ s ∈ st1.streams, stoppedAll s = true) ∧
    st1.predictInterval = none ∧ st1.nextSid = st.nextSid := by
  obtain ⟨h1, h2, h3, h4⟩ := h
  cases hc : st.currentStream with
  | none =>
    refine ⟨h1, ?_, ?_, rfl⟩
    · intro s hs; exact h2 s hs (by simp [hc])
    · cases hp : st.predictInterval with
      | none => rfl
      | some k => exact absurd ((h4 (by simp [hp])).1) (by simp [hc])
  | some sid =>
    rw [stopCamera_of_some hc]
    refine ⟨?_, ?_, rfl, rfl⟩
    · intro s' hs'
      rcases mem_stopTracksOf hs' with ⟨_, s, hs, hsid⟩ | ⟨hs, _⟩
      · simpa [hsid] using h1 s hs
      · exact h1 s' hs
    · intro s' hs'
      rcases mem_stopTracksOf hs' with ⟨hstop, _⟩ | ⟨hs, hne⟩
      · exact hstop
      · exact h2 s' hs (by simp [hc]; exact fun e => hne e.symm)

theorem inv_attachStream {st : AppState} (h : Inv st) (loadOk : Bool)
    (ft : Except Unit (List Pred)) (playOk : Bool)
    (tracks : List MediaTrack) :
    Inv (attachStream loadOk ft playOk tracks st) := by
  obtain ⟨p1, p2, p3, p4⟩ := attachStream_pre h
  unfold attachStream
  obtain ⟨f1, f2, f3⟩ := startPredictions_frame loadOk ft _
  refine ⟨?_, ?_, ?_, ?_⟩
  · rw [f1, f3]
    intro s hs
    simp only [List.mem_append, List.mem_singleton] at hs
    rcases hs with hs | hs
    · exact Nat.lt_succ_of_lt (p1 s hs)
    · subst hs; exact Nat.lt_succ_self _
  · rw [f1, f2]
    intro s hs hcur
    simp only [List.mem_append, List.mem_singleton] at hs
    rcases hs with hs | hs
    · exact p2 s hs
    · subst hs; simp at hcur
  · rw [f2, f3]
    intro i hi
    simp only [Option.some.injEq] at hi
    subst hi
    exact Nat.lt_succ_self _
  · exact startPredictions_inv2 loadOk ft _ (by simp [p3])

theorem startCamera_snd (env : StartEnv) (st : AppState) :
    (startCamera env st).2 = st ∨
      ∃ tr, (startCamera env st).2 =
        attachStream env.loadOk env.firstTick env.playOk tr st := by
  unfold startCamera
  cases ha : env.apiAvailable with
  | false => left; rfl
  | true =>
    cases hd : env.directResult with
    | ok tracks => right; exact ⟨tracks, rfl⟩
    | error e =>
      cases he : env.enumResult with
      | error e2 => left; rfl
      | ok devices =>
        by_cases hv : (devices.filter fun d => d.kind == "videoinput").isEmpty
        · left; simp [hv]
        · cases hf : selectFallback (devices.filter fun d => d.kind == "videoinput") with
          | none => left; simp [hv, hf]
          | some chosen =>
            cases hr : env.fallbackResult with
            | ok tracks => right; refine ⟨tracks, ?_⟩; simp [hv, hf, hr]
            | error e3 => left; simp [hv, hf, hr]

theorem inv_startCamera {st : AppState} (h : Inv st) (env : StartEnv) :
    Inv (startCamera env st).2 := by
  rcases startCamera_snd env st with heq | ⟨tr, heq⟩
  · rw [heq]; exact h
  · rw [heq]; exact inv_attachStream h env.loadOk env.firstTick env.playOk tr

theorem inv_statusText {st : AppState} (h : Inv st) (txt : String) :
    Inv { st with statusText := txt } := h

theorem inv_intervalTick {st : AppState} (h : Inv st)
    (res : Except Unit (List Pred)) : Inv (intervalTick res st) := by
  obtain ⟨h1, h2, h3, h4⟩ := h
  unfold intervalTick
  cases hp : st.predictInterval.isSome <;> cases res <;>
    simp_all [runOnce, updatePredictions, Inv]

theorem inv_step {st : AppState} (h : Inv st) (ev : Ev) : Inv (step ev st) := by
  cases ev with
  | startCam env => exact inv_startCamera h env
  | stopCam => exact inv_stopCamera h
  | visHidden =>
    unfold step
    cases hc : st.currentStream with
    | none => exact h
    | some sid => exact inv_stopCamera h
  | domLoaded env => exact inv_startCamera (inv_statusText h _) env
  | tick res => exact inv_intervalTick h res

theorem inv_run (evs : List Ev) : ∀ {st : AppState}, Inv st → Inv (run evs st) := by
  induction evs with
  | nil => intro st h; exact h
  | cons e evs ih =>
    intro st h
    exact ih (inv_step h e)

theorem find?_first {α : Type} (p : α → Bool) :
    ∀ (l : List α) (a : α), l.find? p = some a →
      ∃ i : Fin l.length, l.get i = a ∧ p a = true ∧
        ∀ j : Fin l.length, j.val < i.val → p (l.get j) = false := by
  intro l
  induction l with
  | nil => intro a h; simp at h
  | cons x xs ih =>
    intro a h
    by_cases hx : p x
    · have hax : a = x := by
        rw [List.find?_cons_of_pos _ hx] at h
        exact (Option.some.injEq _ _ ▸ h.symm)
      subst hax
      refine ⟨⟨0, by simp⟩, rfl, hx, ?_⟩
      intro j hj
      simp at hj
    · rw [List.find?_cons_of_neg _ hx] at h
      obtain ⟨i, h1, h2, h3⟩ := ih a h
      refine ⟨⟨i.val + 1, by simp [Nat.succ_lt_succ i.isLt]⟩, ?_, h2, ?_⟩
      · simpa using h1
      · intro j hj
        rcases j with ⟨jv, hjv⟩
        cases jv with
        | zero => simpa using hx
        | succ k =>
          have hk : k < xs.length := by
            simp at hjv; omega
          have := h3 ⟨k, hk⟩ (by simp at hj ⊢; omega)
          simpa using this

theorem getLast?_of_ne_nil {α : Type} (l : List α) (h : l ≠ []) :
    ∃ hlen : l.length - 1 < l.length,
      l.getLast? = some (l.get ⟨l.length - 1, hlen⟩) := by
  have hpos : 0 < l.length := List.length_pos.mpr h
  have hlt : l.length - 1 < l.length := by omega
  refine ⟨hlt, ?_⟩
  rw [List.getLast?_eq_getElem?, List.getElem?_eq_getElem hlt]
  simp [List.get_eq_getElem]

theorem attachStream_of_some {st : AppState} {i : Nat}
    (hcur : st.currentStream = some i) (loadOk : Bool)
    (ft : Except Unit (List Pred)) (playOk : Bool)
    (tracks : List MediaTrack) :
    attachStream loadOk ft playOk tracks st =
      startPredictions loadOk ft
        { st with
            streams := stopTracksOf i st.streams ++ [⟨st.nextSid, tracks⟩],
            currentStream := some st.nextSid,
            predictInterval := none,
            predictionsList := ["No hay predicciones"],
            nextSid := st.nextSid + 1,
            videoSrc := some st.nextSid,
            videoMuted := true,
            videoPaused := !playOk } := by
  cases playOk <;>
    simp [attachStream, hcur, stopCamera_of_some hcur]

/-- The integer computed inside `toFixed2` is exactly
`⌊100 x + 1/2⌋`, the JS `toFixed(2)` rounding (round half toward
positive infinity). -/
theorem toFixed2_div_eq_floor (x : ℚ) :
    (200 * x.num + (x.den : Int)) / (2 * (x.den : Int)) =
      ⌊(100 * x + 1/2 : ℚ)⌋ := by
  have hd : (x.den : ℚ) ≠ 0 := by exact_mod_cast x.den_ne_zero
  have hnum : (x.num : ℚ) = x * x.den := (div_eq_iff hd).mp (Rat.num_div_den x)
  have key : (100 * x + 1/2 : ℚ) =
      ((200 * x.num + (x.den : Int) : Int) : ℚ) / ((2 * x.den : ℕ) : ℚ) := by
    field_simp
    linear_combination (-400 : ℚ) * hnum
  rw [key, Rat.floor_intCast_div_natCast]
  push_cast
  ring_nf

/-! ## The claims -/

/-- C1: at most one CaptureStream is active at any observation point of
any `startCamera()`/`stopCamera()` event sequence — every heap stream
other than the current one has all tracks stopped (the current
reference being a single `Option` field, at most one stream can be
current); and `attachStream` over an active stream fully stops the old
stream (every track of every heap copy with its id is stopped) while
the fresh stream, with a different id, becomes the only current one. -/
theorem claim_C1 :
    (∀ evs : List Ev, ∀ s ∈ (run evs initState).streams,
        (run evs initState).currentStream ≠ some s.sid →
          stoppedAll s = true) ∧
    (∀ (st : AppState) (loadOk : Bool) (ft : Except Unit (List Pred))
        (playOk : Bool) (tracks : List MediaTrack) (i : Nat),
        Inv st → st.currentStream = some i →
          (attachStream loadOk ft playOk tracks st).currentStream =
              some st.nextSid ∧
            st.nextSid ≠ i ∧
            ∀ s ∈ (attachStream loadOk ft playOk tracks st).streams,
              s.sid = i → stoppedAll s = true) := by
  constructor
  · intro evs s hs hcur
    exact (inv_run evs inv_initState).2.1 s hs hcur
  · intro st loadOk ft playOk tracks i hinv hcur
    have hi : i < st.nextSid := hinv.2.2.1 i hcur
    rw [attachStream_of_some hcur]
    obtain ⟨f1, f2, f3⟩ := startPredictions_frame loadOk ft _
    refine ⟨?_, by omega, ?_⟩
    · rw [f2]
    · rw [f1]
      intro s hs hsid
      simp only [List.mem_append, List.mem_singleton] at hs
      rcases hs with hs | hs
      · rcases mem_stopTracksOf hs with ⟨hstop, _⟩ | ⟨_, hne⟩
        · exact hstop
        · exact absurd hsid hne
      · subst hs
        exact absurd hsid (by simp; omega)

/-- C1 witness: after a start/stop sequence the replaced stream is
fully stopped, and attaching over the demo state makes the fresh
stream current. -/
theorem claim_C1_witness :
    stoppedAll ⟨0, [false, false]⟩ = true ∧
    (attachStream true (Except.ok []) true [true] demoState).currentStream =
      some demoState.nextSid := by
  constructor
  · exact claim_C1.1 [Ev.startCam demoEnv, Ev.stopCam] ⟨0, [false, false]⟩
      (by decide) (by decide)
  · exact (claim_C1.2 demoState true (Except.ok []) true [true] 0
      (inv_run [Ev.startCam demoEnv] inv_initState) (by decide)).1

/-- C2 is violated by the program under the event-loop semantics: when
the page is hidden (running `stopCamera`) while the uncached model load
of a fresh `startPredictions` is suspended, the resumed continuation
passes the interval guard and registers the repeating task although no
stream is active any more — and a further `stopCamera`, returning early
on the null stream reference, can never clear that handle. -/
theorem claim_C2_code_bug :
    ((arun [AEv.attach true [true], AEv.stopCam,
          AEv.loadResolve 0 true, AEv.runResolve 0 (Except.ok [])]
          initAsync).base.predictInterval.isSome = true ∧
      (arun [AEv.attach true [true], AEv.stopCam,
          AEv.loadResolve 0 true, AEv.runResolve 0 (Except.ok [])]
          initAsync).base.currentStream = none) ∧
    (arun [AEv.attach true [true], AEv.stopCam,
        AEv.loadResolve 0 true, AEv.runResolve 0 (Except.ok []),
        AEv.stopCam]
        initAsync).base.predictInterval.isSome = true := by
  decide

/-- C3: `startPredictions()` is idempotent while the loop is running —
in any state satisfying the loop invariant (a live handle implies an
active stream and a cached model, as in every reachable state), a
second call is a complete no-op, so no second repeating task is ever
created; the handle being one `Option` field, at most one non-null
handle exists at a time. -/
theorem claim_C3 (st : AppState) (loadOk : Bool)
    (ft : Except Unit (List Pred))
    (hinv : st.predictInterval.isSome →
      st.currentStream.isSome ∧ st.model.isSome)
    (hrun : st.predictInterval.isSome) :
    startPredictions loadOk ft st = st := by
  obtain ⟨hs, hm⟩ := hinv hrun
  obtain ⟨c, hc⟩ := Option.isSome_iff_exists.mp hs
  obtain ⟨m, hmm⟩ := Option.isSome_iff_exists.mp hm
  simp [startPredictions, hc, loadModel_of_some hmm, hrun]

/-- C3 witness: a second `startPredictions()` on the demo state (whose
loop is running) changes nothing. -/
theorem claim_C3_witness :
    startPredictions true (Except.ok []) demoState = demoState :=
  claim_C3 demoState true (Except.ok [])
    (inv_run [Ev.startCam demoEnv] inv_initState).2.2.2 (by decide)

/-- C4: `updatePredictions` replaces all previously displayed entries
with the rendering of its input; null or empty input yields exactly one
placeholder entry containing no probability text; non-empty input
yields one entry per prediction in input order, formatted as
label, em dash, probability times 100 to two decimals, percent sign;
and the spec examples render as "cat — 85.32%", "dog — 10.00%". -/
theorem claim_C4 :
    (∀ (st : AppState) (preds : Option (List Pred)),
        (updatePredictions preds st).predictionsList = renderList preds) ∧
    (renderList none).length = 1 ∧
    (renderList (some [])).length = 1 ∧
    (∀ e ∈ renderList none, strContainsCI e "%" = false) ∧
    (∀ e ∈ renderList (some []), strContainsCI e "%" = false) ∧
    (∀ ps : List Pred, ps ≠ [] →
        renderList (some ps) = ps.map predEntry) ∧
    renderList (some [⟨"cat", 8532/10000⟩, ⟨"dog", 10/100⟩]) =
      ["cat — 85.32%", "dog — 10.00%"] := by
  refine ⟨?_, rfl, rfl, ?_, ?_, ?_, ?_⟩
  · intro st preds; rfl
  · intro e he; simp [renderList] at he; subst he; decide
  · intro e he; simp [renderList] at he; subst he; decide
  · intro ps hps
    cases ps with
    | nil => exact absurd rfl hps
    | cons p ps => rfl
  · have e1 : (8532/10000 * 100 : ℚ) = Rat.divInt 4266 50 := by
      rw [Rat.divInt_eq_div]; norm_num
    have e2 : (10/100 * 100 : ℚ) = Rat.divInt 10 1 := by
      rw [Rat.divInt_eq_div]; norm_num
    simp only [renderList, List.map, predEntry, e1, e2]
    decide

/-- C4 witness: the placeholder has no percent sign and a non-empty
input renders by mapping the entry formatter. -/
theorem claim_C4_witness :
    strContainsCI "No hay predicciones" "%" = false ∧
    renderList (some [⟨"a", 1/4⟩]) = List.map predEntry [⟨"a", 1/4⟩] :=
  ⟨claim_C4.2.2.2.1 "No hay predicciones" (by decide),
    claim_C4.2.2.2.2.2.1 [⟨"a", 1/4⟩] (by decide)⟩

/-- C5: on a non-empty device list the fallback selector returns the
first device whose label contains, case-insensitively, one of the
rear-camera keywords (back, rear, environment, trasera, posterior),
and the last device when no label matches; in particular
"Back Camera" wins over "Front Camera", and "Camera B" is picked from
two non-matching labels. -/
theorem claim_C5 :
    (∀ ds : List Device, ds ≠ [] →
        ∃ i : Fin ds.length, selectFallback ds = some (ds.get i) ∧
          ((hasBackKeyword (ds.get i).label = true ∧
              ∀ j : Fin ds.length, j.val < i.val →
                hasBackKeyword (ds.get j).label = false) ∨
            ((∀ d ∈ ds, hasBackKeyword d.label = false) ∧
              i.val = ds.length - 1))) ∧
    selectFallback [⟨"f", "videoinput", "Front Camera"⟩,
        ⟨"b", "videoinput", "Back Camera"⟩] =
      some ⟨"b", "videoinput", "Back Camera"⟩ ∧
    selectFallback [⟨"a", "videoinput", "Camera A"⟩,
        ⟨"b", "videoinput", "Camera B"⟩] =
      some ⟨"b", "videoinput", "Camera B"⟩ := by
  refine ⟨?_, by decide, by decide⟩
  intro ds hne
  unfold selectFallback
  cases hf : ds.find? (fun d => hasBackKeyword d.label) with
  | some d =>
    obtain ⟨i, h1, h2, h3⟩ := find?_first _ ds d hf
    refine ⟨i, by rw [h1], Or.inl ⟨?_, h3⟩⟩
    rw [h1]; exact h2
  | none =>
    obtain ⟨hlen, hlast⟩ := getLast?_of_ne_nil ds hne
    refine ⟨⟨ds.length - 1, hlen⟩, by simp [hlast], Or.inr ⟨?_, rfl⟩⟩
    intro d hd
    have := List.find?_eq_none.mp hf d hd
    simpa using this

/-- C5 witness: on the two-device front/back list the selector picks an
indexed device that carries a rear keyword with no earlier match. -/
theorem claim_C5_witness :
    ∃ i : Fin ([⟨"f", "videoinput", "Front Camera"⟩,
        ⟨"b", "videoinput", "Back Camera"⟩] : List Device).length,
      selectFallback [⟨"f", "videoinput", "Front Camera"⟩,
          ⟨"b", "videoinput", "Back Camera"⟩] =
        some (([⟨"f", "videoinput", "Front Camera"⟩,
          ⟨"b", "videoinput", "Back Camera"⟩] : List Device).get i) ∧
      ((hasBackKeyword (([⟨"f", "videoinput", "Front Camera"⟩,
            ⟨"b", "videoinput", "Back Camera"⟩] : List Device).get i).label =
              true ∧
          ∀ j : Fin ([⟨"f", "videoinput", "Front Camera"⟩,
              ⟨"b", "videoinput", "Back Camera"⟩] : List Device).length,
            j.val < i.val →
              hasBackKeyword (([⟨"f", "videoinput", "Front Camera"⟩,
                ⟨"b", "videoinput", "Back Camera"⟩] : List Device).get j).label =
                  false) ∨
        ((∀ d ∈ ([⟨"f", "videoinput", "Front Camera"⟩,
            ⟨"b", "videoinput", "Back Camera"⟩] : List Device),
              hasBackKeyword d.label = false) ∧
          i.val = ([⟨"f", "videoinput", "Front Camera"⟩,
            ⟨"b", "videoinput", "Back Camera"⟩] : List Device).length - 1)) :=
  claim_C5.1 _ (by decide)

/-- C6: `loadModel()` is idempotent — with a cached model every call
returns the same instance and the whole state (in particular the count
of underlying `mobilenet.load()` invocations) is untouched; after a
first successful load from scratch the underlying load has run exactly
once and every later call returns that same cached instance without
running it again. -/
theorem claim_C6 :
    (∀ (st : AppState) (ok : Bool) (m : Nat),
        st.model = some m → loadModel ok st = (Except.ok m, st)) ∧
    (∀ st : AppState, st.model = none →
        ∃ m st1, loadModel true st = (Except.ok m, st1) ∧
          st1.model = some m ∧ st1.loadCount = st.loadCount + 1 ∧
          ∀ ok : Bool, loadModel ok st1 = (Except.ok m, st1)) := by
  constructor
  · intro st ok m h
    exact loadModel_of_some h ok
  · intro st h
    refine ⟨st.loadCount,
      { st with model := some st.loadCount,
                loadCount := st.loadCount + 1,
                statusText := "Modelo cargado" }, ?_, rfl, rfl, ?_⟩
    · simp [loadModel, h]
    · intro ok
      exact loadModel_of_some rfl ok

/-- C6 witness: reloading on the demo state (model cached) returns the
cached instance and changes nothing. -/
theorem claim_C6_witness :
    loadModel false demoState = (Except.ok 0, demoState) :=
  claim_C6.1 demoState false 0 (by decide)

/-- C7: when the model load fails, `startPredictions()` leaves the
loop handle null, caches no model, sets the status text to the
loading-error message, invokes the underlying load exactly once (no
automatic retry), runs no classification pass, and keeps the stream. -/
theorem claim_C7 (st : AppState) (ft : Except Unit (List Pred)) (c : Nat)
    (hs : st.currentStream = some c) (hm : st.model = none)
    (hp : st.predictInterval = none) :
    (startPredictions false ft st).predictInterval = none ∧
    (startPredictions false ft st).model = none ∧
    (startPredictions false ft st).statusText = "Error cargando modelo" ∧
    (startPredictions false ft st).loadCount = st.loadCount + 1 ∧
    (startPredictions false ft st).predictionsList = st.predictionsList ∧
    (startPredictions false ft st).currentStream = st.currentStream := by
  simp [startPredictions, loadModel, hs, hm, hp]

/-- C7 witness: a failing load on a stream-active, model-less state
surfaces the error status and starts no loop. -/
theorem claim_C7_witness :
    (startPredictions false (Except.ok []) demoNoModel).predictInterval =
        none ∧
    (startPredictions false (Except.ok []) demoNoModel).model = none ∧
    (startPredictions false (Except.ok []) demoNoModel).statusText =
        "Error cargando modelo" ∧
    (startPredictions false (Except.ok []) demoNoModel).loadCount =
        demoNoModel.loadCount + 1 ∧
    (startPredictions false (Except.ok []) demoNoModel).predictionsList =
        demoNoModel.predictionsList ∧
    (startPredictions false (Except.ok []) demoNoModel).currentStream =
        demoNoModel.currentStream :=
  claim_C7 demoNoModel (Except.ok []) 0 rfl rfl rfl

/-- C8: a failing classification pass on a tick is a complete no-op —
the displayed results stay unchanged, the repeating task is not
cancelled (the handle is untouched, so subsequent ticks still run) —
in every state where the loop is running. -/
theorem claim_C8 (st : AppState) (h : st.predictInterval.isSome) :
    intervalTick (Except.error ()) st = st ∧
    (intervalTick (Except.error ()) st).predictInterval =
      st.predictInterval := by
  constructor <;> simp [intervalTick, h, runOnce]

/-- C8 witness: an erroring tick on the demo state changes nothing. -/
theorem claim_C8_witness :
    intervalTick (Except.error ()) demoState = demoState ∧
    (intervalTick (Except.error ()) demoState).predictInterval =
      demoState.predictInterval :=
  claim_C8 demoState (by decide)

/-- C9: `stopCamera()` with no active stream is a no-op — the whole
state (stream reference, loop handle, video element, rendered list) is
returned unchanged and no error is raised. -/
theorem claim_C9 (st : AppState) (h : st.currentStream = none) :
    stopCamera st = st :=
  stopCamera_of_none h

/-- C9 witness: stopping from the initial state changes nothing. -/
theorem claim_C9_witness : stopCamera initState = initState :=
  claim_C9 initState rfl

/-- C10: with the media-capture API unavailable, `startCamera()` shows
exactly the unavailability alert and returns with the state untouched —
no stream, no model load, no loop. -/
theorem claim_C10 (env : StartEnv) (st : AppState)
    (h : env.apiAvailable = false) :
    startCamera env st =
      (["getUserMedia no está disponible en este navegador. Usa un navegador moderno."],
        st) := by
  simp [startCamera, h]

/-- C10 witness: the API-less demo oracle alerts and leaves the initial
state untouched. -/
theorem claim_C10_witness :
    startCamera demoEnvNoApi initState =
      (["getUserMedia no está disponible en este navegador. Usa un navegador moderno."],
        initState) :=
  claim_C10 demoEnvNoApi initState rfl

end Reconocimiento
